import Mathlib

/-!
Verification development for the Conga → Box DocGen template conversion
engine (src/DTOs/models.py, src/parsers/docx_parser.py,
src/core/conversion_engine.py).

Modelling conventions:
* Python `str` is Lean `String`; `Optional[str]` is `Option String`.
* Python truthiness of an `Optional[str]` (both `None` and `""` are falsy)
  is `pyTruthy`; `x or d` on an `Optional[str]` is `pyOr`.
* Python dicts are association lists with unique keys; `k in d` is
  `(d.lookup k).isSome` and `d[k]` is the looked-up value.
* `str.strip()` is `pyStrip` (ASCII whitespace, which matches the
  repository's inputs); `s.startswith(p)` / `s.endswith(p)` are
  `pyStartsWith` / `pyEndsWith` over the underlying character lists.
* Literal braces in strings are written with the `\x7b` / `\x7d` escapes
  and apostrophes with `\x27`.
* `performance_metrics` (wall-clock timing) and the unused
  `confidence_score` / `original_conga_context` fields are not modelled.
-/

namespace CongaConvert

/-! ## Data model (src/DTOs/models.py) -/

/-- `ParsedTemplateElement = Union[CongaMergeField, CongaControlTag, TextSegment]`.
Each constructor carries the fields of the corresponding pydantic model
(the discriminating `element_type` literal is the constructor itself). -/
inductive ParsedTemplateElement where
  | textSegment (original_tag : String) (content : String)
  | congaMergeField (original_tag : String) (field_name : String)
  | congaControlTag (original_tag : String) (control_type : String)
      (parameter : Option String)
deriving DecidableEq, Repr

/-- `SchemaMapping`: only `direct_mappings` is read by the engine;
`type_rules` and `nested_paths` are never consulted by `convert_template`
and are omitted.  The dict is an association list with unique keys. -/
structure SchemaMapping where
  direct_mappings : List (String × String)
deriving DecidableEq, Repr

/-- One row of query_context.csv. -/
structure QueryContextRow where
  CongaField : String
  RelatedBoxField : Option String
  DataType : Option String
  SourceTable : Option String
deriving DecidableEq, Repr

/-- Extracted information from a query_context.sql file (unused by the
engine: the SQL branch in `convert_template` is commented out). -/
structure SqlQueryContext where
  selected_fields : List String
deriving DecidableEq, Repr

/-- An entry in the field-level conversion audit report
(`confidence_score` is never set by the engine and is omitted). -/
structure MappingReportEntry where
  conga_tag : String
  box_tag : Option String
  conversion_method : String
  notes : Option String
deriving DecidableEq, Repr

/-- A validation issue (`original_conga_context` is never set by the
engine and is omitted). -/
structure ValidationError where
  field_tag : Option String
  issue_type : String
  message : String
  severity : String
deriving DecidableEq, Repr

/-- The result of `convert_template` (without the wall-clock
`performance_metrics`, which a pure embedding cannot model). -/
structure ConversionOutput where
  converted_template : String
  mapping_report : List MappingReportEntry
  validation_errors : List ValidationError
deriving DecidableEq, Repr

/-! ## Python string/judgement helpers -/

/-- Truthiness of a Python `Optional[str]`: `None` and `""` are falsy. -/
def pyTruthy : Option String → Bool
  | none => false
  | some s => s != ""

/-- Python `x or default` for `x : Optional[str]`. -/
def pyOr (o : Option String) (d : String) : String :=
  match o with
  | none => d
  | some s => if s == "" then d else s

/-- Python `s.strip()`: remove leading and trailing whitespace. -/
def pyStrip (s : String) : String :=
  (((s.data.dropWhile Char.isWhitespace).reverse.dropWhile
      Char.isWhitespace).reverse).asString

/-- Python `s.startswith(pre)`. -/
def pyStartsWith (s pre : String) : Bool :=
  pre.data.isPrefixOf s.data

/-- Python `s.endswith(suf)`. -/
def pyEndsWith (s suf : String) : Bool :=
  suf.data.isSuffixOf s.data

/-- Python `s.split(":", 1)`: the part before the first colon and the part
after it (the whole string and `""` when no colon occurs, which the caller
guards against). -/
def splitFirstColon (s : String) : String × String :=
  ((s.data.takeWhile (fun c => c ≠ ':')).asString,
    ((s.data.dropWhile (fun c => c ≠ ':')).drop 1).asString)

/-! ## Tag classifier and tokenizer (src/parsers/docx_parser.py) -/

/-- `_parse_tag_content`: strip the inner content; if it contains a colon,
split on the first colon into a `CongaControlTag` (both sides stripped),
otherwise the whole stripped content is the `field_name` of a
`CongaMergeField`. -/
def parseTagContent (full_tag : String) (inner_content : String) :
    ParsedTemplateElement :=
  let stripped := pyStrip inner_content
  if stripped.data.contains ':' then
    let parts := splitFirstColon stripped
    .congaControlTag full_tag (pyStrip parts.1) (some (pyStrip parts.2))
  else
    .congaMergeField full_tag stripped

/-- One attempt of the regex `\x7b\x7b([^\x7d]+)\x7d\x7d` anchored at the
start of the character list: two open braces, a non-empty run of
non-close-brace characters, two close braces.  Returns
`(full_tag, inner_content, rest)` on success. -/
def matchTag (l : List Char) : Option (List Char × List Char × List Char) :=
  match l with
  | c1 :: c2 :: rest =>
    if c1 = '\x7b' ∧ c2 = '\x7b' then
      let inner := rest.takeWhile (fun c => c ≠ '\x7d')
      let after := rest.dropWhile (fun c => c ≠ '\x7d')
      if inner.isEmpty then none
      else
        match after with
        | a1 :: a2 :: rest2 =>
          if a1 = '\x7d' ∧ a2 = '\x7d' then
            some ('\x7b' :: '\x7b' :: (inner ++ ['\x7d', '\x7d']), inner, rest2)
          else none
        | _ => none
    else none
  | _ => none

/-- A `TextSegment` as the parser builds it: `original_tag` and `content`
are both the raw text. -/
def mkText (s : String) : ParsedTemplateElement :=
  .textSegment s s

/-- The parser's flush of accumulated inter-tag text: the segment is kept
only when it is non-whitespace (`if text_before.strip():`). -/
def flushReal (pend : List Char) : List ParsedTemplateElement :=
  if pyStrip pend.asString == "" then [] else [mkText pend.asString]

/-- Unfiltered flush: keeps every non-empty accumulated text run,
whitespace-only ones included.  Used to state what the tokenizer drops. -/
def flushAll (pend : List Char) : List ParsedTemplateElement :=
  if pend.isEmpty then [] else [mkText pend.asString]

/-- The scan loop of `_extract_elements_from_text`, parametrised by the
flush policy.  `pend` is the text accumulated since the last tag.  The
scanner consumes at least one character per step, so with
`fuel ≥ remaining length` the zero-fuel fallback is unreachable; the
fuel makes the recursion structural (kernel-reducible). -/
def extractCoreF (flush : List Char → List ParsedTemplateElement) :
    Nat → List Char → List Char → List ParsedTemplateElement
  | _, pend, [] => flush pend
  | fuel + 1, pend, c :: cs =>
    match matchTag (c :: cs) with
    | some (f, i, rest) =>
      flush pend ++ [parseTagContent f.asString i.asString] ++
        extractCoreF flush fuel [] rest
    | none => extractCoreF flush fuel (pend ++ [c]) cs
  | 0, pend, _ :: _ => flush pend

/-- `_extract_elements_from_text`: scan the text left to right for Conga
tags; text strictly between tags (or before the first / after the last)
becomes a `TextSegment` only when it is not whitespace-only. -/
def extract_elements_from_text (text : String) : List ParsedTemplateElement :=
  extractCoreF flushReal text.data.length [] text.data

/-- The same scan without the whitespace filter: every inter-tag text run
is kept.  (Not a function of the repository; it exists to state exactly
which segments `extract_elements_from_text` drops.) -/
def extractAllFromText (text : String) : List ParsedTemplateElement :=
  extractCoreF flushAll text.data.length [] text.data

/-- Which elements the real tokenizer keeps: every tag element, and a text
segment only when its content is not whitespace-only. -/
def keepElem : ParsedTemplateElement → Bool
  | .textSegment _ content => pyStrip content != ""
  | _ => true

/-- The literal text an element contributes when reassembling the
document: `content` for a text segment, the original tag otherwise. -/
def elemStr : ParsedTemplateElement → String
  | .textSegment _ content => content
  | .congaMergeField original_tag _ => original_tag
  | .congaControlTag original_tag _ _ => original_tag

/-- Character-level reconstruction of a document from its elements. -/
def reconL (els : List ParsedTemplateElement) : List Char :=
  els.foldr (fun e acc => (elemStr e).data ++ acc) []

/-- String-level reconstruction of a document from its elements. -/
def reconStr (els : List ParsedTemplateElement) : String :=
  (reconL els).asString

/-! ## Conversion engine (src/core/conversion_engine.py) -/

/-- The destination dialect's opening delimiter. -/
def openD : String := "\x7b\x7b"

/-- The destination dialect's closing delimiter. -/
def closeD : String := "\x7d\x7d"

/-- Target-tag normalization (lines 102–105): pass a target through
unchanged when it is already brace-wrapped, otherwise wrap it once. -/
def normalizeBoxTag (b : String) : String :=
  if pyStartsWith b openD && pyEndsWith b closeD then b
  else openD ++ b ++ closeD

/-- `schema_mapping and schema_mapping.direct_mappings and conga_tag in
schema_mapping.direct_mappings` (line 77). -/
def directHit (schema_mapping : Option SchemaMapping) (conga_tag : String) :
    Bool :=
  match schema_mapping with
  | none => false
  | some m => !m.direct_mappings.isEmpty &&
      (m.direct_mappings.lookup conga_tag).isSome

/-- The CSV scan (lines 83–88): the first row whose `CongaField` equals
the tag and whose `RelatedBoxField` is truthy. -/
def csvScan (rows : List QueryContextRow) (conga_tag : String) :
    Option QueryContextRow :=
  rows.find? (fun r => r.CongaField == conga_tag && pyTruthy r.RelatedBoxField)

/-- The notes attached to a CSV-context resolution (line 87). -/
def csvNotes (r : QueryContextRow) : String :=
  "Data Type: " ++ pyOr r.DataType "N/A" ++ ", Source: " ++
    pyOr r.SourceTable "N/A"

/-- Merge-field resolution (lines 76–93): direct mapping first, else the
CSV context scan (only when the CSV list is truthy), else unmapped.
Returns `(box_tag_found, conversion_method, notes)`. -/
def resolveMergeField (schema_mapping : Option SchemaMapping)
    (query_context_csv : Option (List QueryContextRow)) (conga_tag : String) :
    Option String × String × Option String :=
  if directHit schema_mapping conga_tag then
    ((match schema_mapping with
      | some m => m.direct_mappings.lookup conga_tag
      | none => none), "Direct Mapping (Schema)", none)
  else
    match query_context_csv with
    | some rows =>
      if rows.isEmpty then (none, "Unmapped", none)
      else
        match csvScan rows conga_tag with
        | some r => (r.RelatedBoxField, "Query Context (CSV)", some (csvNotes r))
        | none => (none, "Unmapped", none)
    | none => (none, "Unmapped", none)

/-- The `Unmapped Merge Field` warning (lines 108–115). -/
def unmappedError (conga_tag : String) : ValidationError :=
  ⟨some conga_tag, "Unmapped Merge Field",
    "Merge field \x27" ++ conga_tag ++
      "\x27 could not be mapped using available rules.", "warning"⟩

/-- The `Missing Parameter` error (lines 143–148). -/
def missingParamError (control_type conga_tag : String) : ValidationError :=
  ⟨some conga_tag, "Missing Parameter",
    control_type ++ " tag \x27" ++ conga_tag ++
      "\x27 is missing its required parameter.", "error"⟩

/-- The `Mismatched Block End` warning (lines 159–164). -/
def mismatchError (control_type conga_tag parameter_name popped_parameter :
    String) : ValidationError :=
  ⟨some conga_tag, "Mismatched Block End",
    control_type ++ " tag \x27" ++ conga_tag ++ "\x27 parameter \x27" ++
      parameter_name ++ "\x27 does not match open block \x27" ++
      popped_parameter ++ "\x27. Using \x27" ++ popped_parameter ++ "\x27.",
    "warning"⟩

/-- The `Unexpected Block End` error (lines 173–178). -/
def unexpectedEndError (control_type conga_tag : String) : ValidationError :=
  ⟨some conga_tag, "Unexpected Block End",
    control_type ++ " tag \x27" ++ conga_tag ++
      "\x27 found without a matching open block.", "error"⟩

/-- The terminal `Unclosed Block` error (lines 219–224). -/
def unclosedError (unclosed_param : String) : ValidationError :=
  ⟨some ("(Unclosed Block: " ++ unclosed_param ++ ")"), "Unclosed Block",
    "Block \x27" ++ unclosed_param ++
      "\x27 was opened (TableStart or IF) but never closed with a corresponding TableEnd or ENDIF.",
    "error"⟩

/-- The `No Template Content` warning for an empty input (lines 46–52). -/
def emptyInputError : ValidationError :=
  ⟨none, "No Template Content",
    "The uploaded Conga template appears to be empty or no elements were extracted.",
    "warning"⟩

/-- The accumulator state of the conversion loop.  The Python code appends
block parameters at the right end of `open_block_parameters_stack` and
pops from the right; here `stack` keeps the most recently opened
parameter at the head, so the terminal scan over the Python list front to
back is a scan over `stack.reverse`. -/
structure ConvState where
  processed : List String
  report : List MappingReportEntry
  errors : List ValidationError
  stack : List String
deriving DecidableEq, Repr

/-- The state at the start of a conversion pass. -/
def initState : ConvState := ⟨[], [], [], []⟩

/-- The loop body of `convert_template` (lines 62–214) for one element. -/
def stepElement (schema_mapping : Option SchemaMapping)
    (query_context_csv : Option (List QueryContextRow)) (st : ConvState) :
    ParsedTemplateElement → ConvState
  | .textSegment _ content =>
    { st with processed := st.processed ++ [content] }
  | .congaMergeField original_tag _ =>
    let conga_tag := original_tag
    let r := resolveMergeField schema_mapping query_context_csv conga_tag
    let st1 :=
      match r.1 with
      | some b => { st with processed := st.processed ++ [normalizeBoxTag b] }
      | none =>
        { st with
            processed := st.processed ++ [conga_tag]
            errors := st.errors ++ [unmappedError conga_tag] }
    { st1 with report := st1.report ++ [⟨conga_tag, r.1, r.2.1, r.2.2⟩] }
  | .congaControlTag original_tag control_type parameter =>
    let conga_tag := original_tag
    if control_type == "TableStart" || control_type == "IF" then
      if pyTruthy parameter then
        let p := parameter.getD ""
        let block_type_text :=
          if control_type == "TableStart" then "Table Section Start"
          else "Conditional Block Start"
        let box_equivalent_tag := openD ++ "#" ++ p ++ closeD
        { st with
            stack := p :: st.stack
            processed := st.processed ++ [box_equivalent_tag]
            report := st.report ++
              [⟨conga_tag, some box_equivalent_tag,
                control_type ++ " to Box " ++ block_type_text,
                some ("Maps to Box " ++ block_type_text ++ " for \x27" ++ p ++
                  "\x27.")⟩] }
      else
        { st with
            errors := st.errors ++ [missingParamError control_type conga_tag]
            processed := st.processed ++ [conga_tag]
            report := st.report ++
              [⟨conga_tag, none, "Control Tag (Unhandled)",
                some ("Missing parameter for " ++ control_type ++ " tag.")⟩] }
    else if control_type == "TableEnd" || control_type == "ENDIF" then
      let expected_block_type :=
        if control_type == "TableEnd" then "Table" else "IF"
      match st.stack with
      | popped_parameter :: restStack =>
        let box_equivalent_tag := openD ++ "/" ++ popped_parameter ++ closeD
        let mismatch := control_type == "TableEnd" && pyTruthy parameter &&
          parameter.getD "" != popped_parameter
        let note :=
          if mismatch then
            "Mismatched " ++ expected_block_type ++
              " end parameter. Expected \x27" ++ popped_parameter ++
              "\x27, got \x27" ++ parameter.getD "" ++ "\x27. Closed \x27" ++
              popped_parameter ++ "\x27."
          else
            "Closes " ++ expected_block_type ++ " block for \x27" ++
              popped_parameter ++ "\x27."
        { st with
            stack := restStack
            errors := st.errors ++
              (if mismatch then
                [mismatchError control_type conga_tag (parameter.getD "")
                  popped_parameter]
              else [])
            processed := st.processed ++ [box_equivalent_tag]
            report := st.report ++
              [⟨conga_tag, some box_equivalent_tag,
                control_type ++ " to Box Block End", some note⟩] }
      | [] =>
        { st with
            errors := st.errors ++ [unexpectedEndError control_type conga_tag]
            processed := st.processed ++ [conga_tag]
            report := st.report ++
              [⟨conga_tag, none, "Control Tag (Unhandled)",
                some ("Unexpected " ++ expected_block_type ++ " end tag.")⟩] }
    else
      { st with
          processed := st.processed ++ [conga_tag]
          report := st.report ++
            [⟨conga_tag, none, "Control Tag (Unhandled)",
              some ("Unhandled control tag type: " ++ control_type)⟩] }

/-- The conversion loop: a single forward pass over the elements. -/
def processElements (schema_mapping : Option SchemaMapping)
    (query_context_csv : Option (List QueryContextRow))
    (elements : List ParsedTemplateElement) (st : ConvState) : ConvState :=
  elements.foldl (stepElement schema_mapping query_context_csv) st

/-- `convert_template` (lines 20–242): empty-input early exit, the element
loop, the terminal unclosed-block check (the Python list is scanned front
to back, i.e. first-opened first), and the `" ".join` of the processed
tokens.  The `query_context_sql` argument is accepted but never used,
exactly as in the source. -/
def convert_template (template_elements : List ParsedTemplateElement)
    (schema_mapping : Option SchemaMapping)
    (query_context_csv : Option (List QueryContextRow))
    (query_context_sql : Option SqlQueryContext) : ConversionOutput :=
  if template_elements.isEmpty then
    { converted_template := ""
      mapping_report := []
      validation_errors := [emptyInputError] }
  else
    let st := processElements schema_mapping query_context_csv
      template_elements initState
    { converted_template := String.intercalate " " st.processed
      mapping_report := st.report
      validation_errors := st.errors ++ st.stack.reverse.map unclosedError }

/-! ## Observation helpers -/

/-- Whether an element is a `TextSegment`. -/
def isTextSeg : ParsedTemplateElement → Bool
  | .textSegment _ _ => true
  | _ => false

/-- The `original_tag` field shared by every element kind. -/
def originalTag : ParsedTemplateElement → String
  | .textSegment original_tag _ => original_tag
  | .congaMergeField original_tag _ => original_tag
  | .congaControlTag original_tag _ _ => original_tag

/-- Whether processing the element pushes onto the open-block stack: an
opening control type with a truthy parameter. -/
def isOpenElem : ParsedTemplateElement → Bool
  | .congaControlTag _ control_type parameter =>
    (control_type == "TableStart" || control_type == "IF") &&
      pyTruthy parameter
  | _ => false

/-- Whether the element is of a closing control kind. -/
def isCloseElem : ParsedTemplateElement → Bool
  | .congaControlTag _ control_type _ =>
    control_type == "TableEnd" || control_type == "ENDIF"
  | _ => false

/-- How many validation errors in a list carry the given issue type. -/
def countIssue (issue : String) (errs : List ValidationError) : Nat :=
  errs.countP (fun e => e.issue_type == issue)

/-- A `TableStart` opening tag for parameter `p`, as the tokenizer would
produce it. -/
def mkOpenTS (p : String) : ParsedTemplateElement :=
  .congaControlTag ("\x7b\x7bTableStart:" ++ p ++ "\x7d\x7d") "TableStart"
    (some p)

/-- The report entry the engine writes for `mkOpenTS p`. -/
def openTSEntry (p : String) : MappingReportEntry :=
  ⟨"\x7b\x7bTableStart:" ++ p ++ "\x7d\x7d",
    some (openD ++ "#" ++ p ++ closeD),
    "TableStart to Box Table Section Start",
    some ("Maps to Box Table Section Start for \x27" ++ p ++ "\x27.")⟩

/-! ## Kind-instrumented conversion pass

`stepElementK` is `stepElement` with bookkeeping added: the stack keeps,
next to each pending parameter, the control type of the tag that pushed
it, and every pop records the pair (opener control type, closer control
type).  The bookkeeping never influences control flow —
`stepElementK_toPlain` below proves the instrumented pass projects onto
the real one — and exists to state which closing kinds pop which opening
kinds (claim C9). -/

/-- Conversion state with ghost kind/pop-event bookkeeping. -/
structure ConvStateK where
  processed : List String
  report : List MappingReportEntry
  errors : List ValidationError
  stack : List (String × String)
  popEvents : List (String × String)
deriving DecidableEq, Repr

/-- The instrumented state at the start of a pass. -/
def initStateK : ConvStateK := ⟨[], [], [], [], []⟩

/-- Forget the ghost bookkeeping. -/
def toPlain (sK : ConvStateK) : ConvState :=
  ⟨sK.processed, sK.report, sK.errors, sK.stack.map Prod.snd⟩

/-- The loop body of the instrumented pass (see `stepElement`). -/
def stepElementK (schema_mapping : Option SchemaMapping)
    (query_context_csv : Option (List QueryContextRow)) (sK : ConvStateK) :
    ParsedTemplateElement → ConvStateK
  | .textSegment _ content =>
    { sK with processed := sK.processed ++ [content] }
  | .congaMergeField original_tag _ =>
    let conga_tag := original_tag
    let r := resolveMergeField schema_mapping query_context_csv conga_tag
    let sK1 :=
      match r.1 with
      | some b => { sK with processed := sK.processed ++ [normalizeBoxTag b] }
      | none =>
        { sK with
            processed := sK.processed ++ [conga_tag]
            errors := sK.errors ++ [unmappedError conga_tag] }
    { sK1 with report := sK1.report ++ [⟨conga_tag, r.1, r.2.1, r.2.2⟩] }
  | .congaControlTag original_tag control_type parameter =>
    let conga_tag := original_tag
    if control_type == "TableStart" || control_type == "IF" then
      if pyTruthy parameter then
        let p := parameter.getD ""
        let block_type_text :=
          if control_type == "TableStart" then "Table Section Start"
          else "Conditional Block Start"
        let box_equivalent_tag := openD ++ "#" ++ p ++ closeD
        { sK with
            stack := (control_type, p) :: sK.stack
            processed := sK.processed ++ [box_equivalent_tag]
            report := sK.report ++
              [⟨conga_tag, some box_equivalent_tag,
                control_type ++ " to Box " ++ block_type_text,
                some ("Maps to Box " ++ block_type_text ++ " for \x27" ++ p ++
                  "\x27.")⟩] }
      else
        { sK with
            errors := sK.errors ++ [missingParamError control_type conga_tag]
            processed := sK.processed ++ [conga_tag]
            report := sK.report ++
              [⟨conga_tag, none, "Control Tag (Unhandled)",
                some ("Missing parameter for " ++ control_type ++ " tag.")⟩] }
    else if control_type == "TableEnd" || control_type == "ENDIF" then
      let expected_block_type :=
        if control_type == "TableEnd" then "Table" else "IF"
      match sK.stack with
      | (opener_type, popped_parameter) :: restStack =>
        let box_equivalent_tag := openD ++ "/" ++ popped_parameter ++ closeD
        let mismatch := control_type == "TableEnd" && pyTruthy parameter &&
          parameter.getD "" != popped_parameter
        let note :=
          if mismatch then
            "Mismatched " ++ expected_block_type ++
              " end parameter. Expected \x27" ++ popped_parameter ++
              "\x27, got \x27" ++ parameter.getD "" ++ "\x27. Closed \x27" ++
              popped_parameter ++ "\x27."
          else
            "Closes " ++ expected_block_type ++ " block for \x27" ++
              popped_parameter ++ "\x27."
        { sK with
            stack := restStack
            popEvents := sK.popEvents ++ [(opener_type, control_type)]
            errors := sK.errors ++
              (if mismatch then
                [mismatchError control_type conga_tag (parameter.getD "")
                  popped_parameter]
              else [])
            processed := sK.processed ++ [box_equivalent_tag]
            report := sK.report ++
              [⟨conga_tag, some box_equivalent_tag,
                control_type ++ " to Box Block End", some note⟩] }
      | [] =>
        { sK with
            errors := sK.errors ++ [unexpectedEndError control_type conga_tag]
            processed := sK.processed ++ [conga_tag]
            report := sK.report ++
              [⟨conga_tag, none, "Control Tag (Unhandled)",
                some ("Unexpected " ++ expected_block_type ++ " end tag.")⟩] }
    else
      { sK with
          processed := sK.processed ++ [conga_tag]
          report := sK.report ++
            [⟨conga_tag, none, "Control Tag (Unhandled)",
              some ("Unhandled control tag type: " ++ control_type)⟩] }

/-- The instrumented conversion loop. -/
def processElementsK (schema_mapping : Option SchemaMapping)
    (query_context_csv : Option (List QueryContextRow))
    (elements : List ParsedTemplateElement) (sK : ConvStateK) : ConvStateK :=
  elements.foldl (stepElementK schema_mapping query_context_csv) sK

/-! ## Helper lemmas -/

theorem splitColon_decomp : ∀ l : List Char, ':' ∈ l →
    l.takeWhile (fun c => c ≠ ':') ++ ':' ::
      ((l.dropWhile (fun c => c ≠ ':')).drop 1) = l ∧
    ':' ∉ l.takeWhile (fun c => c ≠ ':') := by
  intro l hmem
  induction l with
  | nil => cases hmem
  | cons c cs ih =>
    by_cases hc : c = ':'
    · subst hc
      simp [List.takeWhile_cons, List.dropWhile_cons]
    · have hcs : ':' ∈ cs := by
        rcases List.mem_cons.mp hmem with h | h
        · exact absurd h.symm hc
        · exact h
      obtain ⟨h1, h2⟩ := ih hcs
      constructor
      · simpa [List.takeWhile_cons, List.dropWhile_cons, hc] using h1
      · simpa [List.takeWhile_cons, hc, Ne.symm hc] using h2

theorem pyStartsWith_wrap (b : String) : pyStartsWith (openD ++ b ++ closeD) openD = true := by
  unfold pyStartsWith
  rw [List.isPrefixOf_iff_prefix, String.data_append, String.data_append]
  exact ⟨b.data ++ closeD.data, by simp⟩

theorem pyEndsWith_wrap (b : String) : pyEndsWith (openD ++ b ++ closeD) closeD = true := by
  unfold pyEndsWith
  rw [List.isSuffixOf_iff_suffix, String.data_append, String.data_append]
  exact List.suffix_append _ _

theorem find?_append_of_forall_not {α : Type} (p : α → Bool) (a b : List α)
    (h : ∀ x ∈ a, p x = false) : (a ++ b).find? p = b.find? p := by
  induction a with
  | nil => rfl
  | cons x xs ih =>
    rw [List.cons_append, List.find?_cons_of_neg]
    · exact ih fun y hy => h y (List.mem_cons_of_mem _ hy)
    · simp [h x (List.mem_cons_self x xs)]

theorem processElements_texts (sm : Option SchemaMapping)
    (csv : Option (List QueryContextRow)) :
    ∀ (texts : List String) (st : ConvState),
      processElements sm csv (texts.map fun t => ParsedTemplateElement.textSegment t t) st =
        { st with processed := st.processed ++ texts } := by
  intro texts
  induction texts with
  | nil => intro st; simp [processElements]
  | cons t ts ih =>
    intro st
    have hstep : stepElement sm csv st (ParsedTemplateElement.textSegment t t) =
        { st with processed := st.processed ++ [t] } := rfl
    calc processElements sm csv
          ((t :: ts).map (fun t => ParsedTemplateElement.textSegment t t)) st
        = processElements sm csv (ts.map (fun t => ParsedTemplateElement.textSegment t t))
            (stepElement sm csv st (ParsedTemplateElement.textSegment t t)) := rfl
      _ = { st with processed := (st.processed ++ [t]) ++ ts } := by rw [hstep, ih]
      _ = { st with processed := st.processed ++ (t :: ts) } := by
          rw [List.append_assoc]; rfl

/-! ## Claim theorems -/

/-- C6, counterexample: on the tag `\x7b\x7bIF:\x7d\x7d` (empty right side
of the colon) the classifier yields a parameter that is the **present**
empty string `some ""`, not an absent parameter `none`, contradicting
"an empty right side treated as an absent parameter". -/
theorem C6_counterexample :
    parseTagContent "\x7b\x7bIF:\x7d\x7d" "IF:" =
      ParsedTemplateElement.congaControlTag "\x7b\x7bIF:\x7d\x7d" "IF" (some "")
    ∧ (some "" : Option String) ≠ none := by
  exact ⟨rfl, by decide⟩

/-- C6, amended: the classifier strips surrounding whitespace; if a colon
is present it splits on the first colon only, yielding a `ControlTag`
whose control type is the trimmed left side and whose parameter is
`some` of the trimmed right side — retained even when that right side is
empty (the empty parameter only behaves as missing later, through the
engine's truthiness checks); if no colon is present the whole trimmed
content becomes the `field_name` of a `MergeField`.  The split is on the
*first* colon: the left part contains no colon and left ++ colon ++ right
restores the trimmed content. -/
theorem C6_amended (full_tag inner_content : String) :
    (parseTagContent full_tag inner_content =
      if (pyStrip inner_content).data.contains ':' then
        ParsedTemplateElement.congaControlTag full_tag
          (pyStrip (splitFirstColon (pyStrip inner_content)).1)
          (some (pyStrip (splitFirstColon (pyStrip inner_content)).2))
      else
        ParsedTemplateElement.congaMergeField full_tag (pyStrip inner_content))
    ∧ ((pyStrip inner_content).data.contains ':' = true →
        (splitFirstColon (pyStrip inner_content)).1.data ++ ':' ::
          (splitFirstColon (pyStrip inner_content)).2.data =
            (pyStrip inner_content).data
        ∧ ':' ∉ (splitFirstColon (pyStrip inner_content)).1.data) := by
  constructor
  · rfl
  · intro hc
    have hmem : ':' ∈ (pyStrip inner_content).data := by
      simpa using hc
    obtain ⟨h1, h2⟩ := splitColon_decomp (pyStrip inner_content).data hmem
    unfold splitFirstColon
    exact ⟨h1, h2⟩

/-- C6, witness. -/
theorem C6_amended_witness :
    parseTagContent "\x7b\x7bTableStart:Contacts\x7d\x7d" "TableStart:Contacts" =
      ParsedTemplateElement.congaControlTag "\x7b\x7bTableStart:Contacts\x7d\x7d"
        "TableStart" (some "Contacts")
    ∧ (splitFirstColon (pyStrip "TableStart:Contacts")).1.data ++ ':' ::
        (splitFirstColon (pyStrip "TableStart:Contacts")).2.data =
          (pyStrip "TableStart:Contacts").data
    ∧ ':' ∉ (splitFirstColon (pyStrip "TableStart:Contacts")).1.data :=
  ⟨by
    have h := (C6_amended "\x7b\x7bTableStart:Contacts\x7d\x7d" "TableStart:Contacts").1
    rw [h]; rfl,
   ((C6_amended "\x7b\x7bTableStart:Contacts\x7d\x7d" "TableStart:Contacts").2 (by decide)).1,
   ((C6_amended "\x7b\x7bTableStart:Contacts\x7d\x7d" "TableStart:Contacts").2 (by decide)).2⟩

/-- C7: target-tag normalization is idempotent and never double-wraps: a
target already starting with `\x7b\x7b` and ending with `\x7d\x7d` passes
through unchanged, any other target is wrapped exactly once, and
re-normalizing a normalized target changes nothing. -/
theorem C7_normalize_idempotent (b : String) :
    ((pyStartsWith b openD && pyEndsWith b closeD) = true →
      normalizeBoxTag b = b)
    ∧ ((pyStartsWith b openD && pyEndsWith b closeD) = false →
      normalizeBoxTag b = openD ++ b ++ closeD)
    ∧ normalizeBoxTag (normalizeBoxTag b) = normalizeBoxTag b := by
  refine ⟨fun h => by simp [normalizeBoxTag, h],
    fun h => by simp [normalizeBoxTag, h], ?_⟩
  by_cases h : (pyStartsWith b openD && pyEndsWith b closeD) = true
  · simp [normalizeBoxTag, h]
  · have h' : (pyStartsWith b openD && pyEndsWith b closeD) = false := by
      simpa using h
    have hwrap : normalizeBoxTag b = openD ++ b ++ closeD := by
      simp [normalizeBoxTag, h']
    rw [hwrap]
    simp [normalizeBoxTag, pyStartsWith_wrap, pyEndsWith_wrap]

/-- C7, witness. -/
theorem C7_normalize_idempotent_witness :
    ((pyStartsWith "\x7b\x7bx\x7d\x7d" openD && pyEndsWith "\x7b\x7bx\x7d\x7d" closeD) = true
      → normalizeBoxTag "\x7b\x7bx\x7d\x7d" = "\x7b\x7bx\x7d\x7d")
    ∧ normalizeBoxTag "\x7b\x7bx\x7d\x7d" = "\x7b\x7bx\x7d\x7d"
    ∧ normalizeBoxTag "contact.name" = openD ++ "contact.name" ++ closeD :=
  ⟨(C7_normalize_idempotent "\x7b\x7bx\x7d\x7d").1,
   (C7_normalize_idempotent "\x7b\x7bx\x7d\x7d").1 (by decide),
   (C7_normalize_idempotent "contact.name").2.1 (by decide)⟩

/-- C1, counterexample: `convert_template` joins the emitted tokens with a
single space (`" ".join` in the source), not by plain concatenation: on
two adjacent `Text` elements `"a"` and `"b"` the converted text is
`"a b"`, not `"ab"`. -/
theorem C1_counterexample :
    (convert_template [mkText "a", mkText "b"] none none none).converted_template = "a b"
    ∧ (convert_template [mkText "a", mkText "b"] none none none).converted_template ≠ "ab" := by
  exact ⟨rfl, by decide⟩

/-- C1, amended: for every non-empty input element sequence, the converted
text is the per-element emitted tokens joined with a single space between
adjacent tokens (not plain concatenation); in particular, for an input
consisting only of `Text` elements, the output is their contents joined
with single spaces, so for a single `Text` element the output equals its
content exactly. -/
theorem C1_amended (elements : List ParsedTemplateElement)
    (sm : Option SchemaMapping) (csv : Option (List QueryContextRow))
    (sql : Option SqlQueryContext) (texts : List String)
    (h : elements ≠ []) :
    (convert_template elements sm csv sql).converted_template =
      String.intercalate " " (processElements sm csv elements initState).processed
    ∧ (texts ≠ [] →
        (convert_template (texts.map fun t => ParsedTemplateElement.textSegment t t)
            sm csv sql).converted_template = String.intercalate " " texts) := by
  constructor
  · cases elements with
    | nil => exact absurd rfl h
    | cons e es => rfl
  · intro ht
    cases texts with
    | nil => exact absurd rfl ht
    | cons t ts =>
      show (convert_template (ParsedTemplateElement.textSegment t t ::
        ts.map fun t => ParsedTemplateElement.textSegment t t) sm csv sql).converted_template = _
      rw [show (convert_template (ParsedTemplateElement.textSegment t t ::
          ts.map fun t => ParsedTemplateElement.textSegment t t) sm csv sql).converted_template =
          String.intercalate " " (processElements sm csv
            (ParsedTemplateElement.textSegment t t ::
              ts.map fun t => ParsedTemplateElement.textSegment t t) initState).processed
        from rfl]
      rw [show (ParsedTemplateElement.textSegment t t ::
          ts.map fun t => ParsedTemplateElement.textSegment t t) =
          ((t :: ts).map fun t => ParsedTemplateElement.textSegment t t) from rfl]
      rw [processElements_texts sm csv (t :: ts) initState]
      simp [initState]

/-- C1, witness. -/
theorem C1_amended_witness :
    (convert_template [ParsedTemplateElement.textSegment "x" "x"] none none none).converted_template =
      String.intercalate " "
        (processElements none none [ParsedTemplateElement.textSegment "x" "x"] initState).processed
    ∧ (convert_template (["a", "b"].map fun t => ParsedTemplateElement.textSegment t t)
        none none none).converted_template = String.intercalate " " ["a", "b"] :=
  ⟨(C1_amended [ParsedTemplateElement.textSegment "x" "x"] none none none ["a", "b"] (by decide)).1,
   (C1_amended [ParsedTemplateElement.textSegment "x" "x"] none none none ["a", "b"] (by decide)).2 (by decide)⟩

/-- C3, counterexample: on the input `[Open("A"), Open("B")]` the engine
reports exactly two unclosed-block errors, but for `A` first and then `B`
(the Python list is iterated front to back, i.e. first-opened first), not
`B` first as the claim states. -/
theorem C3_counterexample :
    (convert_template [mkOpenTS "A", mkOpenTS "B"] none none none).validation_errors =
      [unclosedError "A", unclosedError "B"]
    ∧ [unclosedError "A", unclosedError "B"] ≠ [unclosedError "B", unclosedError "A"] := by
  exact ⟨rfl, by decide⟩

theorem processElements_opens (sm : Option SchemaMapping)
    (csv : Option (List QueryContextRow)) :
    ∀ (params : List String) (st : ConvState), (∀ p ∈ params, p ≠ "") →
      processElements sm csv (params.map mkOpenTS) st =
        ⟨st.processed ++ params.map (fun p => openD ++ "#" ++ p ++ closeD),
         st.report ++ params.map openTSEntry, st.errors,
         params.reverse ++ st.stack⟩ := by
  intro params
  induction params with
  | nil => intro st _; simp [processElements]
  | cons p ps ih =>
    intro st hne
    have hp : pyTruthy (some p) = true := by
      have := hne p (List.mem_cons_self p ps)
      simp [pyTruthy, this]
    have hstep : stepElement sm csv st (mkOpenTS p) =
        ⟨st.processed ++ [openD ++ "#" ++ p ++ closeD],
         st.report ++ [openTSEntry p], st.errors, p :: st.stack⟩ := by
      simp only [mkOpenTS, stepElement, hp]
      rfl
    calc processElements sm csv ((p :: ps).map mkOpenTS) st
        = processElements sm csv (ps.map mkOpenTS) (stepElement sm csv st (mkOpenTS p)) := rfl
      _ = _ := by
          rw [hstep, ih _ (fun q hq => hne q (List.mem_cons_of_mem p hq))]
          simp

/-- C3, amended: after the full element sequence is consumed,
`convert_template` reports one unclosed-block error (severity error) for
each parameter remaining on the open-block stack, in
**first-opened-first** order (the Python stack list is iterated front to
back): for the input `[Open("A"), Open("B")]` with no closers, exactly two
unclosed-block errors are produced, for `A` first and then `B`. -/
theorem C3_amended (params : List String) (sm : Option SchemaMapping)
    (csv : Option (List QueryContextRow)) (sql : Option SqlQueryContext)
    (h0 : params ≠ []) (h : ∀ p ∈ params, p ≠ "") :
    (convert_template (params.map mkOpenTS) sm csv sql).validation_errors =
      params.map unclosedError := by
  cases params with
  | nil => exact absurd rfl h0
  | cons p ps =>
    have : (convert_template ((p :: ps).map mkOpenTS) sm csv sql).validation_errors =
        (processElements sm csv ((p :: ps).map mkOpenTS) initState).errors ++
          (processElements sm csv ((p :: ps).map mkOpenTS) initState).stack.reverse.map
            unclosedError := rfl
    rw [this, processElements_opens sm csv (p :: ps) initState h]
    simp [initState]

/-- C3, witness. -/
theorem C3_amended_witness :
    (convert_template (["A", "B"].map mkOpenTS) none none none).validation_errors =
      ["A", "B"].map unclosedError :=
  C3_amended ["A", "B"] none none none (by decide) (by decide)

/-- C5, counterexample: a closing tag that carries a parameter differing
from the popped one does **not** always produce a mismatched-block-end
warning: the check is only performed for `TableEnd` closers.  On
`[TableStart:A, ENDIF:B]` the block is closed with the popped parameter
`A` but no warning at all is reported (the claim demands exactly one). -/
theorem C5_counterexample :
    (convert_template
        [ParsedTemplateElement.congaControlTag "\x7b\x7bTableStart:A\x7d\x7d" "TableStart" (some "A"),
         ParsedTemplateElement.congaControlTag "\x7b\x7bENDIF:B\x7d\x7d" "ENDIF" (some "B")]
        none none none).validation_errors = []
    ∧ countIssue "Mismatched Block End"
        (convert_template
          [ParsedTemplateElement.congaControlTag "\x7b\x7bTableStart:A\x7d\x7d" "TableStart" (some "A"),
           ParsedTemplateElement.congaControlTag "\x7b\x7bENDIF:B\x7d\x7d" "ENDIF" (some "B")]
          none none none).validation_errors = 0
    ∧ (convert_template
        [ParsedTemplateElement.congaControlTag "\x7b\x7bTableStart:A\x7d\x7d" "TableStart" (some "A"),
         ParsedTemplateElement.congaControlTag "\x7b\x7bENDIF:B\x7d\x7d" "ENDIF" (some "B")]
        none none none).converted_template = "\x7b\x7b#A\x7d\x7d \x7b\x7b/A\x7d\x7d" := by
  exact ⟨rfl, rfl, rfl⟩

/-- C5, amended: for every closing control tag processed while the
open-block stack is non-empty, the top parameter is popped and the emitted
closing delimiter is built from the popped parameter (never from the
closing tag's own parameter); a mismatched-block-end warning is reported
exactly when the closer is a `TableEnd` carrying a truthy parameter that
differs from the popped one — an `ENDIF` closer never produces the
warning, even when its parameter differs. -/
theorem C5_amended (sm : Option SchemaMapping) (csv : Option (List QueryContextRow))
    (st : ConvState) (original_tag control_type : String) (parameter : Option String)
    (q : String) (rest : List String)
    (hct : control_type = "TableEnd" ∨ control_type = "ENDIF")
    (hst : st.stack = q :: rest) :
    (stepElement sm csv st
        (ParsedTemplateElement.congaControlTag original_tag control_type parameter)).stack = rest
    ∧ (stepElement sm csv st
        (ParsedTemplateElement.congaControlTag original_tag control_type parameter)).processed =
        st.processed ++ [openD ++ "/" ++ q ++ closeD]
    ∧ (stepElement sm csv st
        (ParsedTemplateElement.congaControlTag original_tag control_type parameter)).errors =
        st.errors ++
          (if control_type = "TableEnd" ∧ pyTruthy parameter = true ∧ parameter.getD "" ≠ q
           then [mismatchError control_type original_tag (parameter.getD "") q]
           else []) := by
  rcases hct with rfl | rfl
  · by_cases hm : pyTruthy parameter = true ∧ parameter.getD "" ≠ q
    · obtain ⟨hm1, hm2⟩ := hm
      simp [stepElement, hst, hm1, hm2]
    · rw [Classical.not_and_iff_or_not_not] at hm
      rcases hm with hm | hm
      · have hm' : pyTruthy parameter = false := by
          simpa using hm
        simp [stepElement, hst, hm']
      · have hm' : parameter.getD "" = q := by
          simpa using hm
        simp [stepElement, hst, hm']
  · simp [stepElement, hst]

/-- C5, witness. -/
theorem C5_amended_witness :
    (stepElement none none ⟨[], [], [], ["A"]⟩
        (ParsedTemplateElement.congaControlTag "\x7b\x7bENDIF:B\x7d\x7d" "ENDIF" (some "B"))).stack = []
    ∧ (stepElement none none ⟨[], [], [], ["A"]⟩
        (ParsedTemplateElement.congaControlTag "\x7b\x7bENDIF:B\x7d\x7d" "ENDIF" (some "B"))).processed =
        [] ++ [openD ++ "/" ++ "A" ++ closeD]
    ∧ (stepElement none none ⟨[], [], [], ["A"]⟩
        (ParsedTemplateElement.congaControlTag "\x7b\x7bENDIF:B\x7d\x7d" "ENDIF" (some "B"))).errors = [] := by
  have h := C5_amended none none ⟨[], [], [], ["A"]⟩ "\x7b\x7bENDIF:B\x7d\x7d" "ENDIF"
    (some "B") "A" [] (Or.inr rfl) rfl
  refine ⟨h.1, h.2.1, ?_⟩
  rw [h.2.2]
  simp

/-- C4: when a merge field's lookup key has an entry in the direct-mapping
table, resolution uses the direct mapping (the reported method is
`Direct Mapping (Schema)` and the target is the table value), whatever the
context rows contain; the context-row scan is consulted only when the
direct lookup misses, and it then returns the first row (in sequence
order) whose source key equals the lookup key and whose target reference
is truthy. -/
theorem C4_priority :
    (∀ (dm : List (String × String)) (tag v : String)
        (csv : Option (List QueryContextRow)) (st : ConvState) (fn : String),
      dm.lookup tag = some v →
        resolveMergeField (some ⟨dm⟩) csv tag = (some v, "Direct Mapping (Schema)", none)
        ∧ (stepElement (some ⟨dm⟩) csv st
            (ParsedTemplateElement.congaMergeField tag fn)).report =
            st.report ++ [⟨tag, some v, "Direct Mapping (Schema)", none⟩])
    ∧ (∀ (sm : Option SchemaMapping) (tag : String)
        (pre post : List QueryContextRow) (r : QueryContextRow),
      directHit sm tag = false →
      (∀ r' ∈ pre, ¬ (r'.CongaField = tag ∧ pyTruthy r'.RelatedBoxField = true)) →
      r.CongaField = tag → pyTruthy r.RelatedBoxField = true →
        resolveMergeField sm (some (pre ++ r :: post)) tag =
          (r.RelatedBoxField, "Query Context (CSV)", some (csvNotes r))) := by
  constructor
  · intro dm tag v csv st fn hl
    have hne : dm.isEmpty = false := by
      cases dm with
      | nil => simp [List.lookup] at hl
      | cons hd tl => rfl
    have hdh : directHit (some ⟨dm⟩) tag = true := by
      simp [directHit, hne, hl]
    have hres : resolveMergeField (some ⟨dm⟩) csv tag =
        (some v, "Direct Mapping (Schema)", none) := by
      simp [resolveMergeField, hdh, hl]
    refine ⟨hres, ?_⟩
    simp [stepElement, hres]
  · intro sm tag pre post r hdh hpre hr hbx
    have hfind : csvScan (pre ++ r :: post) tag = some r := by
      unfold csvScan
      rw [find?_append_of_forall_not _ pre _ ?hpre, List.find?_cons_of_pos]
      · simp [hr, hbx]
      case hpre =>
        intro r' hr'
        have := hpre r' hr'
        by_cases h1 : r'.CongaField = tag
        · have h2 : pyTruthy r'.RelatedBoxField = false := by
            rcases Bool.eq_false_or_eq_true (pyTruthy r'.RelatedBoxField) with h | h
            · exact absurd ⟨h1, h⟩ this
            · exact h
          simp [h2]
        · simp [h1]
    have hne : (pre ++ r :: post).isEmpty = false := by
      cases pre <;> rfl
    simp [resolveMergeField, hdh, hne, hfind]

/-- C4, witness (the spec's scenario: key mapped both directly and via a
context row — the direct mapping wins). -/
theorem C4_priority_witness :
    resolveMergeField (some ⟨[("\x7b\x7bName\x7d\x7d", "contact.name")]⟩)
        (some [⟨"\x7b\x7bName\x7d\x7d", some "other.name", none, none⟩])
        "\x7b\x7bName\x7d\x7d" =
      (some "contact.name", "Direct Mapping (Schema)", none) :=
  (C4_priority.1 [("\x7b\x7bName\x7d\x7d", "contact.name")] "\x7b\x7bName\x7d\x7d"
    "contact.name" (some [⟨"\x7b\x7bName\x7d\x7d", some "other.name", none, none⟩])
    initState "Name" (by decide)).1

theorem step_report_tags (sm : Option SchemaMapping)
    (csv : Option (List QueryContextRow)) (st : ConvState)
    (e : ParsedTemplateElement) :
    (stepElement sm csv st e).report.map (fun en => en.conga_tag) =
      st.report.map (fun en => en.conga_tag) ++
        (if isTextSeg e then [] else [originalTag e]) := by
  cases e with
  | textSegment otag content => simp [stepElement, isTextSeg]
  | congaMergeField otag fn =>
    simp only [stepElement]
    cases hr : (resolveMergeField sm csv otag).1 <;>
      simp [hr, isTextSeg, originalTag]
  | congaControlTag otag ct param =>
    simp only [stepElement]
    split
    · split <;> simp [isTextSeg, originalTag]
    · split
      · split <;> simp [isTextSeg, originalTag]
      · simp [isTextSeg, originalTag]

theorem processElements_report_tags (sm : Option SchemaMapping)
    (csv : Option (List QueryContextRow)) :
    ∀ (elements : List ParsedTemplateElement) (st : ConvState),
      (processElements sm csv elements st).report.map (fun en => en.conga_tag) =
        st.report.map (fun en => en.conga_tag) ++
          (elements.filter (fun e => !isTextSeg e)).map originalTag := by
  intro elements
  induction elements with
  | nil => intro st; simp [processElements]
  | cons e es ih =>
    intro st
    have hfold : processElements sm csv (e :: es) st =
        processElements sm csv es (stepElement sm csv st e) := rfl
    rw [hfold, ih, step_report_tags]
    by_cases h : isTextSeg e <;> simp [h, List.filter_cons]

/-- C8: for every input element sequence, the mapping report returned by
`convert_template` contains exactly one entry per non-text element, in
element order (each entry's `conga_tag` is that element's original tag),
and `Text` elements never produce a report entry. -/
theorem C8_report_per_element (elements : List ParsedTemplateElement)
    (sm : Option SchemaMapping) (csv : Option (List QueryContextRow))
    (sql : Option SqlQueryContext) :
    (convert_template elements sm csv sql).mapping_report.map (fun en => en.conga_tag) =
      (elements.filter (fun e => !isTextSeg e)).map originalTag := by
  cases elements with
  | nil => rfl
  | cons e es =>
    have hrep : (convert_template (e :: es) sm csv sql).mapping_report =
        (processElements sm csv (e :: es) initState).report := rfl
    rw [hrep, processElements_report_tags]
    simp [initState]

theorem matchTag_spec {l f i r : List Char}
    (h : matchTag l = some (f, i, r)) :
    f = '\x7b' :: '\x7b' :: (i ++ ['\x7d', '\x7d'])
    ∧ l = f ++ r ∧ i ≠ [] ∧ ∀ c ∈ i, c ≠ '\x7d' := by
  match l with
  | [] => simp [matchTag] at h
  | [c] => simp [matchTag] at h
  | c1 :: c2 :: rest =>
    simp only [matchTag] at h
    split at h
    case isTrue hbr =>
      split at h
      case isTrue => exact absurd h (by simp)
      case isFalse hni =>
        split at h
        case h_1 a1 a2 rest2 heq =>
          split at h
          case isTrue hcl =>
            simp only [Option.some.injEq, Prod.mk.injEq] at h
            obtain ⟨hf, hi, hr⟩ := h
            subst hf; subst hi; subst hr
            refine ⟨rfl, ?_, ?_, ?_⟩
            · have hsplit : rest.takeWhile (fun c => c ≠ '\x7d') ++
                  rest.dropWhile (fun c => c ≠ '\x7d') = rest :=
                List.takeWhile_append_dropWhile ..
              obtain ⟨hb1, hb2⟩ := hbr
              obtain ⟨hc1, hc2⟩ := hcl
              subst hb1; subst hb2; subst hc1; subst hc2
              rw [List.cons_append, List.cons_append]
              rw [List.append_assoc]
              rw [show (['\x7d', '\x7d'] : List Char) ++ rest2 = '\x7d' :: '\x7d' :: rest2 from rfl]
              rw [← heq, hsplit]
            · simpa [List.isEmpty_iff] using hni
            · intro c hc
              have := List.mem_takeWhile_imp hc
              simpa using this
          case isFalse => exact absurd h (by simp)
        case h_2 => exact absurd h (by simp)
    case isFalse => exact absurd h (by simp)

theorem data_asString (l : List Char) : (l.asString).data = l := rfl

theorem reconL_append (a b : List ParsedTemplateElement) :
    reconL (a ++ b) = reconL a ++ reconL b := by
  induction a with
  | nil => rfl
  | cons e es ih =>
    show (elemStr e).data ++ reconL (es ++ b) =
      ((elemStr e).data ++ reconL es) ++ reconL b
    rw [ih, List.append_assoc]

theorem reconL_flushAll (pend : List Char) : reconL (flushAll pend) = pend := by
  unfold flushAll
  split
  case isTrue h => simpa [reconL] using (List.isEmpty_iff.mp h).symm
  case isFalse h => simp [reconL, mkText, elemStr, data_asString]

theorem elemStr_parseTagContent (f i : String) :
    elemStr (parseTagContent f i) = f := by
  simp only [parseTagContent]
  split <;> rfl

theorem keepElem_parseTagContent (f i : String) :
    keepElem (parseTagContent f i) = true := by
  simp only [parseTagContent]
  split <;> rfl

theorem extractAll_recon :
    ∀ (fuel : Nat) (pend l : List Char), l.length ≤ fuel →
      reconL (extractCoreF flushAll fuel pend l) = pend ++ l := by
  intro fuel
  induction fuel with
  | zero =>
    intro pend l h
    have hl : l = [] := List.length_eq_zero.mp (Nat.le_zero.mp h)
    subst hl
    simp [extractCoreF, reconL_flushAll]
  | succ n ih =>
    intro pend l h
    cases l with
    | nil => simp [extractCoreF, reconL_flushAll]
    | cons c cs =>
      cases hm : matchTag (c :: cs) with
      | none =>
        have hcs : cs.length ≤ n := by
          simpa using h
        simp only [extractCoreF, hm]
        rw [ih (pend ++ [c]) cs hcs]
        simp
      | some triple =>
        obtain ⟨f, i, r⟩ := triple
        obtain ⟨hf, hl, hne, hni⟩ := matchTag_spec hm
        have hlen : r.length ≤ n := by
          have h1 : (c :: cs).length = f.length + r.length := by
            rw [hl, List.length_append]
          have h2 : f.length = i.length + 4 := by
            rw [hf]; simp
          omega
        simp only [extractCoreF, hm]
        rw [reconL_append, reconL_append]
        rw [ih [] r hlen]
        have hone : reconL [parseTagContent f.asString i.asString] = f := by
          simp [reconL, elemStr_parseTagContent, data_asString]
        rw [hone, reconL_flushAll, hl]
        simp

theorem flushReal_eq_filter (pend : List Char) :
    flushReal pend = (flushAll pend).filter keepElem := by
  by_cases h : pend.isEmpty
  · have hp : pend = [] := List.isEmpty_iff.mp h
    subst hp
    rfl
  · have hfa : flushAll pend = [mkText pend.asString] := by
      simp [flushAll, h, data_asString]
    rw [hfa]
    by_cases hs : pyStrip pend.asString = ""
    · simp [flushReal, keepElem, mkText, hs]
    · simp [flushReal, keepElem, mkText, hs]

theorem extract_eq_filter :
    ∀ (fuel : Nat) (pend l : List Char),
      extractCoreF flushReal fuel pend l =
        (extractCoreF flushAll fuel pend l).filter keepElem := by
  intro fuel
  induction fuel with
  | zero =>
    intro pend l
    cases l <;> simp [extractCoreF, flushReal_eq_filter]
  | succ n ih =>
    intro pend l
    cases l with
    | nil => simp [extractCoreF, flushReal_eq_filter]
    | cons c cs =>
      cases hm : matchTag (c :: cs) with
      | none => simp only [extractCoreF, hm]; exact ih (pend ++ [c]) cs
      | some triple =>
        obtain ⟨f, i, r⟩ := triple
        simp only [extractCoreF, hm]
        rw [List.filter_append, List.filter_append]
        rw [← flushReal_eq_filter, ih [] r]
        simp [keepElem_parseTagContent]

/-- C2, counterexample: a run of text consisting only of whitespace is
**dropped** by the tokenizer, not preserved as a `Text` element: on the
input `" "` the tokenizer returns no elements at all, so the
concatenation of the produced elements is `""`, not `" "`. -/
theorem C2_counterexample :
    extract_elements_from_text " " = []
    ∧ reconStr (extract_elements_from_text " ") = ""
    ∧ (" " : String) ≠ "" := by
  exact ⟨rfl, rfl, by decide⟩

/-- C2, amended: the scan itself covers the entire input with no gaps —
keeping every inter-tag text run, concatenating the contents of `Text`
elements and the original tag strings of the others reproduces the input
exactly — but `extract_elements_from_text` then drops exactly the text
runs that consist only of whitespace: its output is the covering element
sequence filtered to the elements whose text is not whitespace-only.
Concatenation over the actual output therefore reproduces the input
except that whitespace-only runs between (or around) tags are omitted. -/
theorem C2_amended (text : String) :
    reconStr (extractAllFromText text) = text
    ∧ extract_elements_from_text text =
        (extractAllFromText text).filter keepElem := by
  constructor
  · unfold reconStr extractAllFromText
    rw [extractAll_recon text.data.length [] text.data (Nat.le_refl _)]
    rfl
  · exact extract_eq_filter text.data.length [] text.data

theorem pyStrip_data_mem {c : Char} {s : String}
    (h : c ∈ (pyStrip s).data) : c ∈ s.data := by
  unfold pyStrip at h
  rw [data_asString] at h
  rw [List.mem_reverse] at h
  have h1 := (List.dropWhile_sublist (l := (s.data.dropWhile Char.isWhitespace).reverse)
    (p := Char.isWhitespace)).subset h
  rw [List.mem_reverse] at h1
  exact (List.dropWhile_sublist (l := s.data) (p := Char.isWhitespace)).subset h1

theorem parseTagContent_mergeField {full inner otag fn : String}
    (h : parseTagContent full inner = ParsedTemplateElement.congaMergeField otag fn) :
    otag = full ∧ fn = pyStrip inner := by
  unfold parseTagContent at h
  by_cases hc : (pyStrip inner).data.contains ':' = true
  · simp only [hc, if_true] at h
    exact ParsedTemplateElement.noConfusion h
  · simp only [hc, if_false] at h
    injection h with h1 h2
    exact ⟨h1.symm, h2.symm⟩

theorem extractAll_mergeField_shape :
    ∀ (fuel : Nat) (pend l : List Char) (otag fn : String),
      ParsedTemplateElement.congaMergeField otag fn ∈ extractCoreF flushAll fuel pend l →
      ∃ i : List Char, i ≠ [] ∧ (∀ c ∈ i, c ≠ '\x7d')
        ∧ otag = ('\x7b' :: '\x7b' :: (i ++ ['\x7d', '\x7d'])).asString
        ∧ fn = pyStrip i.asString := by
  have hflush : ∀ (pend : List Char) (otag fn : String),
      ParsedTemplateElement.congaMergeField otag fn ∈ flushAll pend → False := by
    intro pend otag fn hmem
    unfold flushAll at hmem
    split at hmem
    · cases hmem
    · rcases List.mem_singleton.mp hmem with h
      exact ParsedTemplateElement.noConfusion h
  intro fuel
  induction fuel with
  | zero =>
    intro pend l otag fn hmem
    cases l with
    | nil => exact absurd hmem (fun h => hflush pend otag fn h)
    | cons c cs => exact absurd hmem (fun h => hflush pend otag fn h)
  | succ n ih =>
    intro pend l otag fn hmem
    cases l with
    | nil => exact absurd hmem (fun h => hflush pend otag fn h)
    | cons c cs =>
      cases hm : matchTag (c :: cs) with
      | none =>
        simp only [extractCoreF, hm] at hmem
        exact ih (pend ++ [c]) cs otag fn hmem
      | some triple =>
        obtain ⟨f, i, r⟩ := triple
        obtain ⟨hf, _, hne, hni⟩ := matchTag_spec hm
        simp only [extractCoreF, hm] at hmem
        rcases List.mem_append.mp hmem with hmem1 | hmem2
        · rcases List.mem_append.mp hmem1 with hmem1a | hmem1b
          · exact absurd hmem1a (fun h => hflush pend otag fn h)
          · have hpt := (List.mem_singleton.mp hmem1b).symm
            obtain ⟨h1, h2⟩ := parseTagContent_mergeField hpt
            refine ⟨i, hne, hni, ?_, h2⟩
            rw [h1, hf]
        · exact ih [] r otag fn hmem2

/-- C10: for every merge field the parser produces, the engine's lookups
compare against the full original tag string (brace delimiters included),
never against the bare field name: (a) the conversion step of a merge
field does not depend on its `field_name` at all; (b) its `field_name`
always differs from its `original_tag`; (c) a direct-mapping table keyed
by the bare field name, together with context rows all keyed by the bare
field name, never matches — the field resolves as unmapped. -/
theorem C10_lookup_keying (text : String) (otag fn : String)
    (hmem : ParsedTemplateElement.congaMergeField otag fn ∈
      extract_elements_from_text text) :
    fn ≠ otag
    ∧ (∀ (sm : Option SchemaMapping) (csv : Option (List QueryContextRow))
        (st : ConvState) (fn' : String),
        stepElement sm csv st (ParsedTemplateElement.congaMergeField otag fn) =
          stepElement sm csv st (ParsedTemplateElement.congaMergeField otag fn'))
    ∧ (∀ (v : String) (rows : List QueryContextRow),
        (∀ r ∈ rows, r.CongaField = fn) →
        resolveMergeField (some ⟨[(fn, v)]⟩) (some rows) otag =
          (none, "Unmapped", none)) := by
  have hmem' : ParsedTemplateElement.congaMergeField otag fn ∈
      extractAllFromText text := by
    have heq : extract_elements_from_text text =
        (extractAllFromText text).filter keepElem :=
      extract_eq_filter text.data.length [] text.data
    rw [heq] at hmem
    exact (List.mem_filter.mp hmem).1
  obtain ⟨i, hne, hni, hotag, hfn⟩ :=
    extractAll_mergeField_shape text.data.length [] text.data otag fn hmem'
  have hclose_mem : '\x7d' ∈ otag.data := by
    rw [hotag, data_asString]
    simp
  have hclose_not : '\x7d' ∉ fn.data := by
    intro hc
    rw [hfn] at hc
    have := pyStrip_data_mem hc
    rw [data_asString] at this
    exact hni '\x7d' this rfl
  have hfn_ne : fn ≠ otag := by
    intro heq
    rw [heq] at hclose_not
    exact hclose_not hclose_mem
  refine ⟨hfn_ne, fun sm csv st fn' => rfl, ?_⟩
  intro v rows hrows
  have hdh : directHit (some ⟨[(fn, v)]⟩) otag = false := by
    have hbeq : (otag == fn) = false := by
      simp [Ne.symm hfn_ne]
    simp [directHit, List.lookup, hbeq]
  have hscan : csvScan rows otag = none := by
    unfold csvScan
    rw [List.find?_eq_none]
    intro r hr
    have : r.CongaField = fn := hrows r hr
    simp [this, Ne.symm (Ne.symm hfn_ne)]
  by_cases hre : rows.isEmpty
  · simp [resolveMergeField, hdh, hre]
  · simp only [resolveMergeField, hdh]
    simp [hre, hscan]

/-- C10, witness: the parser turns `\x7b\x7bName\x7d\x7d` into a merge
field whose bare field name `Name` differs from its original tag, and
mapping sources keyed by the bare name never match it. -/
theorem C10_lookup_keying_witness :
    ("Name" : String) ≠ "\x7b\x7bName\x7d\x7d"
    ∧ resolveMergeField (some ⟨[("Name", "contact.name")]⟩) (some []) "\x7b\x7bName\x7d\x7d" =
        (none, "Unmapped", none) := by
  have h := C10_lookup_keying "\x7b\x7bName\x7d\x7d" "\x7b\x7bName\x7d\x7d" "Name" (by decide)
  exact ⟨h.1, h.2.2 "contact.name" [] (by simp)⟩

theorem stepElementK_toPlain (sm : Option SchemaMapping)
    (csv : Option (List QueryContextRow)) (sK : ConvStateK)
    (e : ParsedTemplateElement) :
    toPlain (stepElementK sm csv sK e) = stepElement sm csv (toPlain sK) e := by
  cases e with
  | textSegment otag content => rfl
  | congaMergeField otag fn =>
    simp only [stepElementK, stepElement]
    cases hr : (resolveMergeField sm csv otag).1 <;> simp [toPlain, hr]
  | congaControlTag otag ct param =>
    simp only [stepElementK, stepElement]
    by_cases h1 : (ct == "TableStart" || ct == "IF") = true
    · by_cases h2 : pyTruthy param = true
      · simp [h1, h2, toPlain]
      · simp [h1, h2, toPlain]
    · by_cases h3 : (ct == "TableEnd" || ct == "ENDIF") = true
      · cases hst : sK.stack with
        | nil => simp [h1, h3, toPlain, hst]
        | cons pr rest =>
          obtain ⟨k, p⟩ := pr
          simp [h1, h3, toPlain, hst]
      · simp [h1, h3, toPlain]

theorem processElementsK_toPlain (sm : Option SchemaMapping)
    (csv : Option (List QueryContextRow)) :
    ∀ (elements : List ParsedTemplateElement) (sK : ConvStateK),
      toPlain (processElementsK sm csv elements sK) =
        processElements sm csv elements (toPlain sK) := by
  intro elements
  induction elements with
  | nil => intro sK; rfl
  | cons e es ih =>
    intro sK
    have hfold : processElementsK sm csv (e :: es) sK =
        processElementsK sm csv es (stepElementK sm csv sK e) := rfl
    rw [hfold, ih, stepElementK_toPlain]
    rfl

theorem countIssue_append (issue : String) (a b : List ValidationError) :
    countIssue issue (a ++ b) = countIssue issue a + countIssue issue b :=
  List.countP_append ..

theorem countIssue_map_unclosed_self (l : List String) :
    countIssue "Unclosed Block" (l.map unclosedError) = l.length := by
  induction l with
  | nil => rfl
  | cons p ps ih =>
    simp [countIssue, List.countP_cons, unclosedError] at ih ⊢

theorem countIssue_map_unclosed_other (l : List String) :
    countIssue "Unexpected Block End" (l.map unclosedError) = 0 := by
  induction l with
  | nil => rfl
  | cons p ps ih => simp [countIssue, List.countP_cons, unclosedError] at ih ⊢

theorem stepElementK_counts (sm : Option SchemaMapping)
    (csv : Option (List QueryContextRow)) (sK : ConvStateK)
    (e : ParsedTemplateElement) :
    (stepElementK sm csv sK e).popEvents.length +
        (stepElementK sm csv sK e).stack.length =
      sK.popEvents.length + sK.stack.length + (if isOpenElem e then 1 else 0)
    ∧ (stepElementK sm csv sK e).popEvents.length +
        countIssue "Unexpected Block End" (stepElementK sm csv sK e).errors =
      sK.popEvents.length + countIssue "Unexpected Block End" sK.errors +
        (if isCloseElem e then 1 else 0)
    ∧ countIssue "Unclosed Block" (stepElementK sm csv sK e).errors =
        countIssue "Unclosed Block" sK.errors := by
  cases e with
  | textSegment otag content => simp [stepElementK, isOpenElem, isCloseElem]
  | congaMergeField otag fn =>
    simp only [stepElementK]
    cases hr : (resolveMergeField sm csv otag).1 <;>
      simp [hr, isOpenElem, isCloseElem, countIssue_append, countIssue,
        List.countP_cons, unmappedError]
  | congaControlTag otag ct param =>
    by_cases h1 : (ct == "TableStart" || ct == "IF") = true
    · have hcl : (ct == "TableEnd" || ct == "ENDIF") = false := by
        have h1' : ct = "TableStart" ∨ ct = "IF" := by simpa using h1
        rcases h1' with h | h
        · subst h; rfl
        · subst h; rfl
      by_cases h2 : pyTruthy param = true
      · simp [stepElementK, h1, h2, isOpenElem, isCloseElem, hcl,
          countIssue_append, countIssue, List.countP_cons]
        omega
      · have h2' : pyTruthy param = false := by simpa using h2
        simp [stepElementK, h1, h2', isOpenElem, isCloseElem, hcl,
          countIssue_append, countIssue, List.countP_cons, missingParamError]
    · by_cases h3 : (ct == "TableEnd" || ct == "ENDIF") = true
      · cases hst : sK.stack with
        | nil =>
          simp [stepElementK, h1, h3, isOpenElem, isCloseElem, hst,
            countIssue_append, countIssue, List.countP_cons, unexpectedEndError]
          omega
        | cons pr rest =>
          obtain ⟨k, p⟩ := pr
          by_cases hmb : (ct == "TableEnd" && pyTruthy param &&
              param.getD "" != p) = true
          · simp [stepElementK, h1, h3, hst, hmb, isOpenElem, isCloseElem,
              countIssue_append, countIssue, List.countP_cons, mismatchError]
            omega
          · have hmb' : (ct == "TableEnd" && pyTruthy param &&
                param.getD "" != p) = false := by simpa using hmb
            simp [stepElementK, h1, h3, hst, hmb', isOpenElem, isCloseElem,
              countIssue_append, countIssue, List.countP_cons]
            omega
      · simp [stepElementK, h1, h3, isOpenElem, isCloseElem,
          countIssue_append, countIssue, List.countP_cons]

theorem processElementsK_counts (sm : Option SchemaMapping)
    (csv : Option (List QueryContextRow)) :
    ∀ (elements : List ParsedTemplateElement) (sK : ConvStateK),
      (processElementsK sm csv elements sK).popEvents.length +
          (processElementsK sm csv elements sK).stack.length =
        sK.popEvents.length + sK.stack.length + elements.countP isOpenElem
      ∧ (processElementsK sm csv elements sK).popEvents.length +
          countIssue "Unexpected Block End"
            (processElementsK sm csv elements sK).errors =
        sK.popEvents.length + countIssue "Unexpected Block End" sK.errors +
          elements.countP isCloseElem
      ∧ countIssue "Unclosed Block" (processElementsK sm csv elements sK).errors =
          countIssue "Unclosed Block" sK.errors := by
  intro elements
  induction elements with
  | nil => intro sK; simp [processElementsK]
  | cons e es ih =>
    intro sK
    have hfold : processElementsK sm csv (e :: es) sK =
        processElementsK sm csv es (stepElementK sm csv sK e) := rfl
    obtain ⟨s1, s2, s3⟩ := stepElementK_counts sm csv sK e
    obtain ⟨i1, i2, i3⟩ := ih (stepElementK sm csv sK e)
    rw [hfold]
    refine ⟨?_, ?_, ?_⟩
    · rw [i1, s1, List.countP_cons]
      by_cases h : isOpenElem e <;> simp [h]
      omega
    · rw [i2, s2, List.countP_cons]
      by_cases h : isCloseElem e <;> simp [h]
      omega
    · rw [i3, s3]

/-- C9, counterexample: the open-block stack records only parameters, not
kinds, so a pop does not check that the closing kind matches the opening
kind: on `[TableStart:A, ENDIF]` the parameter pushed by `TableStart` is
popped by an `ENDIF` — not by its matching closer `TableEnd` — and no
unclosed-block (indeed no) validation error is reported, contradicting
"popped by a matching closing kind ... or reported as unclosed-block". -/
theorem C9_counterexample :
    (processElementsK none none
        [ParsedTemplateElement.congaControlTag "\x7b\x7bTableStart:A\x7d\x7d" "TableStart" (some "A"),
         ParsedTemplateElement.congaControlTag "\x7b\x7bENDIF\x7d\x7d" "ENDIF" none]
        initStateK).popEvents = [("TableStart", "ENDIF")]
    ∧ (processElementsK none none
        [ParsedTemplateElement.congaControlTag "\x7b\x7bTableStart:A\x7d\x7d" "TableStart" (some "A"),
         ParsedTemplateElement.congaControlTag "\x7b\x7bENDIF\x7d\x7d" "ENDIF" none]
        initStateK).stack = []
    ∧ (convert_template
        [ParsedTemplateElement.congaControlTag "\x7b\x7bTableStart:A\x7d\x7d" "TableStart" (some "A"),
         ParsedTemplateElement.congaControlTag "\x7b\x7bENDIF\x7d\x7d" "ENDIF" none]
        none none none).validation_errors = []
    ∧ ("ENDIF" : String) ≠ "TableEnd" := by
  exact ⟨rfl, rfl, rfl, by decide⟩

/-- C9, amended: during every conversion pass, each opening control tag
whose parameter is pushed onto the stack is either popped by **some**
closing-kind tag (`TableEnd` or `ENDIF` — the code does not check that the
closing kind matches the opening kind) or reported as an unclosed-block
error; and each closing-kind control tag either pops exactly one stack
entry or is reported as an unexpected-block-end error with no stack
mutation.  In counts over the instrumented pass: pushes = pop events +
final stack entries; closing-kind tags = pop events + unexpected-block-end
errors; unclosed-block errors = final stack entries; and the instrumented
pass projects onto the real one. -/
theorem C9_balance (elements : List ParsedTemplateElement)
    (sm : Option SchemaMapping) (csv : Option (List QueryContextRow))
    (sql : Option SqlQueryContext) :
    (processElements sm csv elements initState).stack =
      (processElementsK sm csv elements initStateK).stack.map Prod.snd
    ∧ elements.countP isOpenElem =
        (processElementsK sm csv elements initStateK).popEvents.length +
          (processElementsK sm csv elements initStateK).stack.length
    ∧ elements.countP isCloseElem =
        (processElementsK sm csv elements initStateK).popEvents.length +
          countIssue "Unexpected Block End"
            (convert_template elements sm csv sql).validation_errors
    ∧ countIssue "Unclosed Block"
        (convert_template elements sm csv sql).validation_errors =
      (processElementsK sm csv elements initStateK).stack.length := by
  obtain ⟨c1, c2, c3⟩ := processElementsK_counts sm csv elements initStateK
  have hproj : processElements sm csv elements initState =
      toPlain (processElementsK sm csv elements initStateK) :=
    (processElementsK_toPlain sm csv elements initStateK).symm
  refine ⟨?_, ?_, ?_, ?_⟩
  · rw [hproj]; rfl
  · rw [c1]; simp [initStateK]
  · cases elements with
    | nil => rfl
    | cons e es =>
      have herr : (convert_template (e :: es) sm csv sql).validation_errors =
          (processElements sm csv (e :: es) initState).errors ++
            (processElements sm csv (e :: es) initState).stack.reverse.map
              unclosedError := rfl
      rw [herr, hproj]
      have htp : (toPlain (processElementsK sm csv (e :: es) initStateK)).errors =
          (processElementsK sm csv (e :: es) initStateK).errors := rfl
      rw [htp, countIssue_append]
      have hrev : countIssue "Unexpected Block End"
          ((toPlain (processElementsK sm csv (e :: es) initStateK)).stack.reverse.map
            unclosedError) = 0 := countIssue_map_unclosed_other _
      rw [hrev]
      have ha : initStateK.popEvents.length = 0 := rfl
      have hb : countIssue "Unexpected Block End" initStateK.errors = 0 := rfl
      omega
  · cases elements with
    | nil => rfl
    | cons e es =>
      have herr : (convert_template (e :: es) sm csv sql).validation_errors =
          (processElements sm csv (e :: es) initState).errors ++
            (processElements sm csv (e :: es) initState).stack.reverse.map
              unclosedError := rfl
      rw [herr, hproj]
      have htp : (toPlain (processElementsK sm csv (e :: es) initStateK)).errors =
          (processElementsK sm csv (e :: es) initStateK).errors := rfl
      rw [htp, countIssue_append]
      have h0 : countIssue "Unclosed Block"
          (processElementsK sm csv (e :: es) initStateK).errors = 0 := by
        have hb : countIssue "Unclosed Block" initStateK.errors = 0 := rfl
        omega
      rw [h0, countIssue_map_unclosed_self]
      simp [toPlain]

end CongaConvert
